/-
Verification of the request-handling core of the course-builder web
application (src/coursebuilder/controllers/utils.py), as a shallow
embedding in Lean 4.

Strings of the Python source are modelled as lists of characters
(`Str := List Char`); the empty list plays the role of the falsy values
None and the empty string where Python truthiness of a string is tested.
-/
import Mathlib

/-- Python strings, modelled as lists of characters. -/
abbrev Str := List Char

/-! ## Python 2.7 `urlparse` scheme detection

`ApplicationHandler.is_absolute(url)` is `bool(urlparse.urlparse(url).scheme)`.
`urlparse.urlsplit` in Python 2.7 proceeds as follows. Find the first colon
at index i; if i > 0 then
  - if the part before the colon is exactly the string http, the scheme is
    http (fast path) and the remainder after the colon goes through the
    netloc step below;
  - otherwise, if every character before the colon is a scheme character,
    and the remainder after the colon is empty or contains a non-digit
    (the port-number heuristic), the scheme is the lower-cased part before
    the colon and the remainder goes through the netloc step;
in every other case the scheme is the empty string and the WHOLE url goes
through the netloc step. The netloc step: when the remaining url starts
with two slashes, `_splitnetloc` takes the netloc to be everything from
index 2 up to the first slash, question mark or hash at index 2 or later,
and `urlsplit` RAISES ValueError (Invalid IPv6 URL) when that netloc
contains an opening bracket without a closing one or vice versa. The
embedding therefore returns `Except Unit`: the error case is the
ValueError escaping `urlparse`, and through it `is_absolute` and
`canonicalize_url`. -/

/-- The characters `urlparse` accepts inside a scheme. -/
def scheme_chars : Str :=
  ("abcdefghijklmnopqrstuvwxyzABCDEFGHIJKLMNOPQRSTUVWXYZ0123456789+-.").data

/-- Split a string at the first occurrence of the character `sep`: returns
the part before and after, or `none` when `sep` does not occur. -/
def splitAtFirst (sep : Char) : Str → Option (Str × Str)
  | [] => none
  | c :: cs =>
    if c = sep then some ([], cs)
    else
      match splitAtFirst sep cs with
      | some (pre, rest) => some (c :: pre, rest)
      | none => none

/-- Split a string at its first colon (Python `url.find(colon)`). -/
def findColonSplit (s : Str) : Option (Str × Str) :=
  splitAtFirst ':' s

/-- The netloc component Python `_splitnetloc(url, 2)` extracts from a url
whose first two characters are slashes: everything from index 2 up to the
first slash, question mark or hash occurring at index 2 or later. -/
def pySplitNetloc2 (url : Str) : Str :=
  (url.drop 2).takeWhile
    (fun c => !(decide (c = '/') || decide (c = '?') || decide (c = '#')))

/-- The bracket-mismatch test `urlsplit` applies to a netloc before
raising ValueError (Invalid IPv6 URL). -/
def invalidIPv6Netloc (netloc : Str) : Bool :=
  (decide ('[' ∈ netloc) && !(decide (']' ∈ netloc))) ||
  (decide (']' ∈ netloc) && !(decide ('[' ∈ netloc)))

/-- The netloc step of `urlsplit` applied to the remaining url: when the
url starts with two slashes its netloc is extracted, and the step raises
exactly when that netloc has mismatched brackets. -/
def checkNetloc (url : Str) : Except Unit Unit :=
  if url.take 2 = ('/' :: '/' :: []) then
    if invalidIPv6Netloc (pySplitNetloc2 url) then .error () else .ok ()
  else .ok ()

/-- The scheme of `urlparse.urlparse(url)` in Python 2.7, or the
ValueError `urlsplit` raises on a bracket-mismatched netloc. The branches
follow `urlsplit`: http fast path; general scheme detection with the
port-number heuristic; no scheme. In each branch the part of the url left
after scheme removal (the whole url when no scheme was removed) goes
through the netloc step. -/
def urlparse_scheme (url : Str) : Except Unit Str :=
  match findColonSplit url with
  | some (pre, rest) =>
    if pre = [] then                       -- colon at index 0: i > 0 fails
      (checkNetloc url).map (fun _ => [])
    else if pre = ("http").data then       -- fast path
      (checkNetloc rest).map (fun _ => ("http").data)
    else if pre.all (fun c => c ∈ scheme_chars) then
      -- port-number heuristic: "rest" empty, or some char of it not a digit
      if rest = [] || rest.any (fun c => !c.isDigit) then
        (checkNetloc rest).map (fun _ => pre.map Char.toLower)
      else
        (checkNetloc url).map (fun _ => [])
    else
      (checkNetloc url).map (fun _ => [])
  | none => (checkNetloc url).map (fun _ => [])

namespace ApplicationHandler

/-- `ApplicationHandler.is_absolute`: `bool(urlparse.urlparse(url).scheme)`,
truthiness of the scheme string; a ValueError raised by `urlparse`
propagates. -/
def is_absolute (url : Str) : Except Unit Bool :=
  (urlparse_scheme url).map (fun s => !(decide (s = ([] : Str))))

/-- `ApplicationHandler.canonicalize_url(location)`, with the course slug
(`self.app_context.get_slug()`) passed explicitly. The `is_absolute` call
is evaluated first and a ValueError raised by it propagates; the remaining
tests cannot raise. -/
def canonicalize_url (slug location : Str) : Except Unit Str :=
  (is_absolute location).map (fun abs =>
    let is_relative := !abs && !(slug.isPrefixOf location)
    let has_slug := !(decide (slug = ([] : Str))) && !(decide (slug = ("/").data))
    if is_relative && has_slug then slug ++ location else location)

end ApplicationHandler

/-! ## Token Service (XsrfTokenManager)

The implementation of `common.crypto.XsrfTokenManager` is not part of this
repository fragment; only its call sites are. -/

/-- The decimal digit characters. -/
def digitChars : Str := ("0123456789").data

/-- Little-endian decimal digit encoding of a natural number, with
structural fuel (any fuel above the number of digits gives the value). -/
def encNatFuel : Nat → Nat → Str
  | 0, _ => []
  | fuel + 1, n =>
    if n < 10 then [digitChars.getD n '0']
    else digitChars.getD (n % 10) '0' :: encNatFuel fuel (n / 10)

/-- Little-endian decimal digit encoding of a natural number. -/
def encNat (n : Nat) : Str :=
  encNatFuel (n + 1) n

/-- Little-endian decimal digit decoding, inverse of `encNat`. -/
def decNatLE : Str → Option Nat
  | [] => none
  | [c] =>
    if c.isDigit then some (c.toNat - 48) else none
  | c :: cs =>
    if c.isDigit then
      match decNatLE cs with
      | some n => some ((c.toNat - 48) + 10 * n)
      | none => none
    else none

/-- Modelled from the spec: the Token Service of `common.crypto` (absent
from src/). `issue(action) -> token`: tokens are action-scoped and carry
their issue time; here a token is the issue time followed by a slash and
the action name. -/
def XsrfTokenManager.create_xsrf_token (action : Str) (now : Nat) : Str :=
  encNat now ++ '/' :: action

/-- Modelled from the spec: `validate(token, action) -> bool` fails closed:
missing, malformed, expired, or action-mismatched tokens are all rejected.
A token is accepted only if its action component equals the expected action
name and its age at time `now` is within `lifetime`. -/
def XsrfTokenManager.is_xsrf_token_valid
    (token action : Str) (now lifetime : Nat) : Bool :=
  match splitAtFirst '/' token with
  | none => false
  | some (ts, act) =>
    match decNatLE ts with
    | none => false
    | some t => decide (act = action) && decide (t ≤ now) && decide (now - t ≤ lifetime)

/-! ## Action Dispatcher (ReflectiveRequestHandler)

The dispatcher looks a handler method up by name with Python `getattr`.
An attribute lookup has three possible shapes, which the embedding keeps
apart because `getattr(self, name)` with no default RAISES AttributeError
when the attribute is absent, while the source's `if not handler:` check
only fires when the attribute exists and is bound to a falsy value. -/

/-- Result of a Python attribute lookup for a handler method. -/
inductive Attr (H : Type) where
  | absent              -- no such attribute: getattr raises AttributeError
  | boundFalsy          -- attribute exists but is falsy (e.g. bound to None)
  | bound (h : H)       -- attribute bound to a (truthy) handler method
deriving DecidableEq

/-- Observable outcome of a dispatch. -/
inductive DispatchResult (H : Type) where
  | invoked (h : H)       -- the handler method was invoked
  | httpStatus (code : Nat)  -- self.error(code) and return, no handler runs
  | pyError               -- an uncaught Python exception leaves the dispatcher
deriving DecidableEq

/-- The request parameters the dispatcher reads. `request.get` yields the
empty string for an absent parameter, and emptiness is Python falsiness. -/
structure Request where
  action : Str        -- request.get(action)
  xsrf_token : Str    -- request.get(xsrf_token)

namespace ReflectiveRequestHandler

/-- `ReflectiveRequestHandler.get`: resolve the action (falling back on
`default_action` when the parameter is empty), check the read allow-list,
look up the `get_<action>` attribute, invoke it. -/
def get {H : Type} (default_action : Str) (get_actions : List Str)
    (handlers : Str → Attr H) (req : Request) : DispatchResult H :=
  let action := if req.action = [] then default_action else req.action
  if action ∉ get_actions then .httpStatus 404
  else
    match handlers action with
    | .absent => .pyError              -- getattr(self, get_<action>) raises
    | .boundFalsy => .httpStatus 404   -- if not handler
    | .bound h => .invoked h

/-- `ReflectiveRequestHandler.post`: the action parameter is mandatory and
must be in the write allow-list; the `post_<action>` attribute is looked
up; then the supplied `xsrf_token` must validate for this exact action
name before the handler runs. `validate` stands for
`XsrfTokenManager.is_xsrf_token_valid` with token and action arguments. -/
def post {H : Type} (post_actions : List Str) (handlers : Str → Attr H)
    (validate : Str → Str → Bool) (req : Request) : DispatchResult H :=
  let action := req.action
  if action = [] ∨ action ∉ post_actions then .httpStatus 404
  else
    match handlers action with
    | .absent => .pyError              -- getattr(self, post_<action>) raises
    | .boundFalsy => .httpStatus 404   -- if not handler
    | .bound h =>
      if !(validate req.xsrf_token action) then .httpStatus 403
      else .invoked h

end ReflectiveRequestHandler

/-! ## Session/Identity Resolver (BaseHandler)

`models.models.Student` and `models.models.TransientStudent` are external
to this fragment (only their use sites are in src/). -/

/-- Modelled from the spec: an authenticated external user
(`users.get_current_user()`), with stable id and email. -/
structure User where
  email : Str
  uid : Str            -- user.user_id()
deriving DecidableEq

/-- Modelled from the spec: a student record. A persisted record carries
`is_transient = false`; the shared transient-student sentinel carries
`is_transient = true`. `user_id` is empty when unset (legacy records);
`labels` is the label-list text. -/
structure Student where
  is_transient : Bool
  user_id : Str
  labels : Str
deriving DecidableEq

/-- The shared transient-student sentinel (`TRANSIENT_STUDENT`). -/
def TRANSIENT_STUDENT : Student :=
  { is_transient := true, user_id := [], labels := [] }

/-- The ambient collaborators `personalize_page_and_get_enrolled` reads:
the authentication context, the student datastore lookup, the course
environment's browsable flag, and the login URL generator. -/
structure Env where
  user : Option User               -- users.get_current_user()
  enrolled : Str → Option Student  -- Student.get_enrolled_student_by_email
  browsable : Bool                 -- get_environ()[course][browsable]
  loginUrl : Str                   -- users.create_login_url(request.uri)

/-- Observable outcome of `personalize_page_and_get_enrolled`: the returned
value, the `self.redirect(location, normalize)` call if any, the
`student.put()` calls, and the last value written to the
`transient_student` template key. -/
structure EnrolledOutcome where
  result : Option Student
  redirect : Option (Str × Bool)
  puts : List Student
  transient_flag : Option Bool
deriving DecidableEq

namespace BaseHandler

/-- `BaseHandler.personalize_page_and_get_user`: returns the current user
(or None) and the value written to the `transient_student` template key. -/
def personalize_page_and_get_user (env : Env) : Option User × Bool :=
  match env.user with
  | some u => (some u, false)
  | none => (none, true)

/-- `BaseHandler.personalize_page_and_get_enrolled`. The source first
resolves the student: no user gives the transient sentinel; a user with no
enrolled record gives the transient sentinel and marks the template
transient; otherwise the looked-up record. A transient student is either
returned as-is (when the caller supports transient students and the course
is browsable) or turned into a redirect: to the login URL with
`normalize=False` when there is no user, else to `/preview` (normalized,
the default). A non-transient student with no `user_id` is patched from
the user's id and persisted. Each branch below is the source's control
flow specialized to what is known about `user` on that path (when `user`
is None the resolved student is the transient sentinel). -/
def personalize_page_and_get_enrolled
    (env : Env) (supports_transient_student : Bool) : EnrolledOutcome :=
  match env.user with
  | none =>
    -- student := TRANSIENT_STUDENT, which is transient; user is None
    if supports_transient_student && env.browsable then
      { result := some TRANSIENT_STUDENT, redirect := none, puts := [],
        transient_flag := some true }
    else
      { result := none, redirect := some (env.loginUrl, false), puts := [],
        transient_flag := some true }
  | some u =>
    match env.enrolled u.email with
    | none =>
      -- template transient_student := True; student := TRANSIENT_STUDENT
      if supports_transient_student && env.browsable then
        { result := some TRANSIENT_STUDENT, redirect := none, puts := [],
          transient_flag := some true }
      else
        { result := none, redirect := some (("/preview").data, true),
          puts := [], transient_flag := some true }
    | some student =>
      if student.is_transient then
        if supports_transient_student && env.browsable then
          { result := some TRANSIENT_STUDENT, redirect := none, puts := [],
            transient_flag := some false }
        else
          { result := none, redirect := some (("/preview").data, true),
            puts := [], transient_flag := some false }
      else
        if student.user_id = [] then
          let patched := { student with user_id := u.uid }
          { result := some patched, redirect := none, puts := [patched],
            transient_flag := some false }
        else
          { result := some student, redirect := none, puts := [],
            transient_flag := some false }

/-- `BaseHandler.assert_xsrf_token_or_fail`: reads `xsrf_token` from the
request; on a missing (empty) or invalid token calls `self.error(403)` and
returns False, else returns True. Yields (error status set, return value). -/
def assert_xsrf_token_or_fail (validate : Str → Str → Bool)
    (req_xsrf_token action : Str) : Option Nat × Bool :=
  if req_xsrf_token = [] ∨ !(validate req_xsrf_token action) then
    (some 403, false)
  else (none, true)

end BaseHandler

/-! ## REST handlers (BaseRESTHandler) -/

/-- Modelled from the spec: a structured JSON response produced by
`transforms.send_json_response` (external to src/): a status code, a
message, and an optional payload dictionary. -/
structure JsonResponse where
  status : Nat
  message : Str
  payload : Option (List (Str × Str))
deriving DecidableEq

/-- The message `BaseRESTHandler.assert_xsrf_token_or_fail` sends. -/
def badXsrfTokenMessage : Str :=
  ("Bad XSRF token. Please reload the page and try again").data

namespace BaseRESTHandler

/-- `BaseRESTHandler.assert_xsrf_token_or_fail`: reads `xsrf_token` from
`token_dict`; on a missing (empty) or invalid token sends a structured
JSON response with status 403, the bad-token message and `args_dict` as
payload, and returns False; else returns True. -/
def assert_xsrf_token_or_fail (validate : Str → Str → Bool)
    (token action : Str) (args_dict : List (Str × Str)) :
    Option JsonResponse × Bool :=
  if token = [] ∨ !(validate token action) then
    (some { status := 403, message := badXsrfTokenMessage,
            payload := some args_dict }, false)
  else (none, true)

/-- `BaseRESTHandler.validation_error`: sends a structured JSON response
with status 412 and the message; when a key is given the payload carries
it under the `key` entry. -/
def validation_error (message : Str) (key : Option Str) : JsonResponse :=
  match key with
  | some k =>
    { status := 412, message := message, payload := some [(("key").data, k)] }
  | none => { status := 412, message := message, payload := none }

end BaseRESTHandler

/-! ## Student tracks submission (StudentSetTracksHandler)

`common.utils.text_to_list` / `list_to_text` are external to src/; the
embedding works on the decoded label-string lists directly (the output of
`text_to_list(student.labels)` and `request.get_all(labels)`), and on the
label set handed to `Student.set_labels_for_current` before re-encoding. -/

/-- Python `int()` on the digits of a string (no sign, no spaces):
big-endian decimal value, failing on an empty string or any non-digit. -/
def decDigitsGo : Option Nat → Str → Option Nat
  | acc, [] => acc
  | acc, c :: cs =>
    if c.isDigit then
      decDigitsGo (some ((acc.getD 0) * 10 + (c.toNat - 48))) cs
    else none

/-- See `decDigitsGo`: value of a non-empty all-digit string. -/
def decDigits (s : Str) : Option Nat :=
  decDigitsGo none s

/-- Python `int(s)` for a string `s`: strips surrounding whitespace,
accepts one optional sign, then a non-empty digit sequence; anything else
raises ValueError, modelled as `none`. -/
def pyInt (s : Str) : Option Int :=
  let t := ((s.dropWhile Char.isWhitespace).reverse.dropWhile
    Char.isWhitespace).reverse
  match t with
  | '-' :: ds => (decDigits ds).map (fun n => -(n : Int))
  | '+' :: ds => (decDigits ds).map (fun n => (n : Int))
  | ds => (decDigits ds).map (fun n => (n : Int))

namespace StudentSetTracksHandler

/-- The comprehension building `new_track_labels`:
`int(label_id) for label_id in request.get_all(labels)
 if label_id and int(label_id) in all_track_labels`.
A falsy (empty) element is skipped before `int` is reached; a non-numeric
element makes `int` raise ValueError (the `.error` case); a numeric
element is kept exactly when its value is a course-track label id. -/
def parseSubmitted (all_track_labels : List Int) :
    List Str → Except Unit (List Int)
  | [] => .ok []
  | s :: rest =>
    if s = [] then parseSubmitted all_track_labels rest
    else
      match pyInt s with
      | none => .error ()
      | some n =>
        match parseSubmitted all_track_labels rest with
        | .error e => .error e
        | .ok tail => .ok (if n ∈ all_track_labels then n :: tail else tail)

/-- The comprehension building `student_labels`:
`int(label_id) for label_id in text_to_list(student.labels) if label_id`. -/
def parseStudentLabels : List Str → Except Unit (List Int)
  | [] => .ok []
  | s :: rest =>
    if s = [] then parseStudentLabels rest
    else
      match pyInt s with
      | none => .error ()
      | some n =>
        match parseStudentLabels rest with
        | .error e => .error e
        | .ok tail => .ok (n :: tail)

/-- The label computation of `StudentSetTracksHandler.post`, after the
enrollment and XSRF gates (modelled separately): all existing track
labels are removed from the student's label set, then the selected set
from the form is merged in; the resulting set is handed to
`Student.set_labels_for_current`. `track_label_ids` are the ids of the
labels of type course-track; `submitted` is `request.get_all(labels)`;
`student_label_list` is `text_to_list(student.labels)`. -/
def post (track_label_ids : List Int) (submitted : List Str)
    (student_label_list : List Str) : Except Unit (Finset Int) :=
  let all_track_labels : Finset Int := track_label_ids.toFinset
  match parseSubmitted track_label_ids submitted with
  | .error e => .error e
  | .ok new_list =>
    match parseStudentLabels student_label_list with
    | .error e => .error e
    | .ok stu_list =>
      let new_track_labels : Finset Int := new_list.toFinset
      let student_labels : Finset Int := stu_list.toFinset
      .ok ((student_labels \ all_track_labels) ∪ new_track_labels)

end StudentSetTracksHandler

/-! ## Concrete environments used to instantiate the resolver theorems -/

/-- No authenticated identity; course not browsable. -/
def anonymousEnv : Env :=
  { user := none, enrolled := fun _ => none, browsable := false,
    loginUrl := ("https://accounts.example/login").data }

/-- No authenticated identity; course browsable. -/
def anonymousBrowsableEnv : Env :=
  { user := none, enrolled := fun _ => none, browsable := true,
    loginUrl := ("https://accounts.example/login").data }

/-- An authenticated identity with no enrolled student record. -/
def unenrolledEnv : Env :=
  { user := some { email := ("a@b.example").data, uid := ("42").data },
    enrolled := fun _ => none, browsable := false,
    loginUrl := ("https://accounts.example/login").data }

/-- An authenticated identity whose enrolled student record lacks the
legacy `user_id` backfill. -/
def legacyStudentEnv : Env :=
  { user := some { email := ("a@b.example").data, uid := ("42").data },
    enrolled := fun _ =>
      some { is_transient := false, user_id := [], labels := ("7").data },
    browsable := false,
    loginUrl := ("https://accounts.example/login").data }

/-! # Helper lemmas -/

theorem isPrefixOf_append_self (l1 l2 : Str) :
    l1.isPrefixOf (l1 ++ l2) = true := by
  induction l1 with
  | nil => simp [List.isPrefixOf]
  | cons c cs ih => simp [List.isPrefixOf, ih]

theorem splitAtFirst_append (sep : Char) (pre rest : Str) (h : sep ∉ pre) :
    splitAtFirst sep (pre ++ sep :: rest) = some (pre, rest) := by
  induction pre with
  | nil => simp [splitAtFirst]
  | cons c cs ih =>
    simp only [List.mem_cons, not_or] at h
    have hc : ¬c = sep := fun he => h.1 he.symm
    simp [splitAtFirst, ih h.2, hc]

theorem digitChars_getD_mem (i : Nat) : digitChars.getD i '0' ∈ digitChars := by
  by_cases h : i < 10
  · interval_cases i <;> decide
  · rw [List.getD_eq_default]
    · decide
    · simpa [digitChars] using h

theorem encNatFuel_mem (fuel n : Nat) (c : Char) (hc : c ∈ encNatFuel fuel n) :
    c ∈ digitChars := by
  induction fuel generalizing n with
  | zero => simp [encNatFuel] at hc
  | succ f ih =>
    unfold encNatFuel at hc
    split at hc
    · simp only [List.mem_singleton] at hc
      subst hc
      exact digitChars_getD_mem n
    · rcases List.mem_cons.mp hc with h1 | h2
      · subst h1
        exact digitChars_getD_mem (n % 10)
      · exact ih (n / 10) h2

theorem slash_not_mem_encNat (n : Nat) : '/' ∉ encNat n := by
  intro hmem
  have := encNatFuel_mem (n + 1) n '/' hmem
  simp [digitChars] at this

/-- A token issued for one action name never validates for a different
action name: validation reads the action component back out of the token
and compares. -/
theorem token_mismatch (action other : Str) (t now lifetime : Nat)
    (h : action ≠ other) :
    XsrfTokenManager.is_xsrf_token_valid
      (XsrfTokenManager.create_xsrf_token other t) action now lifetime =
      false := by
  unfold XsrfTokenManager.is_xsrf_token_valid XsrfTokenManager.create_xsrf_token
  rw [splitAtFirst_append '/' (encNat t) other (slash_not_mem_encNat t)]
  have hne : ¬other = action := fun he => h he.symm
  cases hdec : decNatLE (encNat t) with
  | none => simp [hdec]
  | some v => simp [hdec, hne]

theorem parseSubmitted_ignored (T : List Int) :
    ∀ submitted : List Str,
      (∀ s ∈ submitted, s = [] ∨ ∃ n : Int, pyInt s = some n ∧ n ∉ T) →
      StudentSetTracksHandler.parseSubmitted T submitted = .ok [] := by
  intro submitted
  induction submitted with
  | nil => intro _; rfl
  | cons s rest ih =>
    intro h
    have hs := h s (List.mem_cons_self s rest)
    have hrest : ∀ x ∈ rest, x = [] ∨ ∃ n : Int, pyInt x = some n ∧ n ∉ T :=
      fun x hx => h x (List.mem_cons_of_mem s hx)
    rcases hs with hs | ⟨n, hn, hnT⟩
    · simp [StudentSetTracksHandler.parseSubmitted, hs, ih hrest]
    · by_cases he : s = ([] : Str)
      · simp [StudentSetTracksHandler.parseSubmitted, he, ih hrest]
      · simp [StudentSetTracksHandler.parseSubmitted, he, hn, ih hrest, hnT]

/-- Every label id the comprehension keeps is a course-track label id: the
filter admits a parsed id only under membership in the track set. -/
theorem parseSubmitted_subset (T : List Int) :
    ∀ (submitted : List Str) (l : List Int),
      StudentSetTracksHandler.parseSubmitted T submitted = .ok l →
      ∀ n ∈ l, n ∈ T := by
  intro submitted
  induction submitted with
  | nil =>
    intro l h n hn
    simp only [StudentSetTracksHandler.parseSubmitted,
      Except.ok.injEq] at h
    subst h
    simp at hn
  | cons s rest ih =>
    intro l h n hn
    simp only [StudentSetTracksHandler.parseSubmitted] at h
    by_cases hs : s = ([] : Str)
    · rw [if_pos hs] at h
      exact ih l h n hn
    · rw [if_neg hs] at h
      cases hp : pyInt s with
      | none => rw [hp] at h; cases h
      | some m =>
        rw [hp] at h
        cases hrec : StudentSetTracksHandler.parseSubmitted T rest with
        | error e => rw [hrec] at h; cases h
        | ok tail =>
          rw [hrec] at h
          simp only [Except.ok.injEq] at h
          subst h
          by_cases hm : m ∈ T
          · rw [if_pos hm] at hn
            rcases List.mem_cons.mp hn with rfl | hn2
            · exact hm
            · exact ih tail hrec n hn2
          · rw [if_neg hm] at hn
            exact ih tail hrec n hn

/-- The comprehension completes without raising whenever every submitted
id is empty or parses as an integer. -/
theorem parseSubmitted_total (T : List Int) :
    ∀ submitted : List Str,
      (∀ s ∈ submitted, s = [] ∨ ∃ n : Int, pyInt s = some n) →
      ∃ l, StudentSetTracksHandler.parseSubmitted T submitted = .ok l := by
  intro submitted
  induction submitted with
  | nil => intro _; exact ⟨[], rfl⟩
  | cons s rest ih =>
    intro h
    obtain ⟨l, hl⟩ := ih (fun x hx => h x (List.mem_cons_of_mem s hx))
    rcases h s (List.mem_cons_self s rest) with hs | ⟨n, hn⟩
    · exact ⟨l, by simp [StudentSetTracksHandler.parseSubmitted, hs, hl]⟩
    · by_cases hse : s = ([] : Str)
      · exact ⟨l, by
          simp [StudentSetTracksHandler.parseSubmitted, hse, hl]⟩
      · exact ⟨if n ∈ T then n :: l else l, by
          simp [StudentSetTracksHandler.parseSubmitted, hse, hn, hl]⟩

/-! # Claim theorems -/

/-- Claim C1: for every POST request whose action is present in the write
allow-list and has a bound handler, the handler is invoked exactly when
the supplied `xsrf_token` validates for this exact action name; on any
token-validation failure the dispatcher responds 403 and the handler is
never invoked. The second conjunct settles the mismatched-token case for
the Token Service: a token issued for a different action name is rejected,
so dispatch with such a token responds 403. -/
theorem C1_post_token_gate :
    (∀ (H : Type) (post_actions : List Str) (handlers : Str → Attr H)
        (validate : Str → Str → Bool) (req : Request) (hdl : H),
      req.action ≠ [] → req.action ∈ post_actions →
      handlers req.action = .bound hdl →
      ((ReflectiveRequestHandler.post post_actions handlers validate req =
          .invoked hdl ↔ validate req.xsrf_token req.action = true) ∧
       (validate req.xsrf_token req.action = false →
        ReflectiveRequestHandler.post post_actions handlers validate req =
          .httpStatus 403))) ∧
    (∀ (action other : Str) (t now lifetime : Nat), action ≠ other →
      XsrfTokenManager.is_xsrf_token_valid
        (XsrfTokenManager.create_xsrf_token other t) action now lifetime =
        false) := by
  constructor
  · intro H post_actions handlers validate req hdl hne hmem hbound
    have hcond : ¬(req.action = [] ∨ req.action ∉ post_actions) := by
      simp [hne, hmem]
    cases hv : validate req.xsrf_token req.action <;>
      simp [ReflectiveRequestHandler.post, hcond, hbound, hv]
  · intro action other t now lifetime h
    exact token_mismatch action other t now lifetime h

/-- Witness for C1: a concrete dispatch with the modelled Token Service.
A fresh token for the action save invokes the bound handler, and a token
issued for register-post does not validate for student-edit. -/
theorem C1_post_token_gate_witness :
    ReflectiveRequestHandler.post [("save").data]
      (fun a => if a = ("save").data then Attr.bound (1 : Nat)
                else Attr.absent)
      (fun tok act => XsrfTokenManager.is_xsrf_token_valid tok act 6 100)
      { action := ("save").data,
        xsrf_token := XsrfTokenManager.create_xsrf_token ("save").data 5 } =
      DispatchResult.invoked 1 ∧
    XsrfTokenManager.is_xsrf_token_valid
      (XsrfTokenManager.create_xsrf_token ("register-post").data 5)
      ("student-edit").data 6 100 = false := by
  constructor
  · exact (C1_post_token_gate.1 Nat [("save").data]
      (fun a => if a = ("save").data then Attr.bound (1 : Nat)
                else Attr.absent)
      (fun tok act => XsrfTokenManager.is_xsrf_token_valid tok act 6 100)
      { action := ("save").data,
        xsrf_token := XsrfTokenManager.create_xsrf_token ("save").data 5 }
      1 (by decide) (by decide) (by decide)).1.mpr (by decide)
  · exact C1_post_token_gate.2 ("student-edit").data
      ("register-post").data 5 6 100 (by decide)

/-- Claim C2: for every POST request whose action parameter is absent
(empty) or not in the write allow-list, the dispatcher responds 404 and
invokes no handler. The result is the same for every token-validation
function, so no token validation is performed; the dispatcher's write path
never consults `default_action` (the embedding of `post` takes none). -/
theorem C2_post_unknown_action :
    ∀ (H : Type) (post_actions : List Str) (handlers : Str → Attr H)
      (validate : Str → Str → Bool) (req : Request),
      (req.action = [] ∨ req.action ∉ post_actions) →
      ReflectiveRequestHandler.post post_actions handlers validate req =
        .httpStatus 404 ∧
      (∀ hdl : H, ReflectiveRequestHandler.post post_actions handlers
        validate req ≠ .invoked hdl) := by
  intro H post_actions handlers validate req h
  constructor
  · simp [ReflectiveRequestHandler.post, h]
  · intro hdl
    simp [ReflectiveRequestHandler.post, h]

/-- Witness for C2: a POST naming an action outside the allow-list is
answered 404 even though a handler is bound and the validator accepts. -/
theorem C2_post_unknown_action_witness :
    ReflectiveRequestHandler.post [("save").data]
      (fun _ => Attr.bound (1 : Nat)) (fun _ _ => true)
      { action := ("edit").data, xsrf_token := [] } =
      DispatchResult.httpStatus 404 :=
  (C2_post_unknown_action Nat [("save").data] (fun _ => Attr.bound (1 : Nat))
    (fun _ _ => true) { action := ("edit").data, xsrf_token := [] }
    (by decide)).1

/-- Claim C3, divergence: a GET request with no action parameter resolves
to the default action (here edit), which is in the read allow-list but has
no bound handler method. The claim says the dispatcher responds 404; the
source does `getattr(self, ...)` with no default, which raises
AttributeError (an uncaught exception, surfaced by the enclosing framework
as a server error), and its `if not handler:` check is unreachable for an
absent attribute. -/
theorem C3_missing_handler_divergence :
    ReflectiveRequestHandler.get ("edit").data [("edit").data]
      (fun _ => (Attr.absent : Attr Nat))
      { action := [], xsrf_token := [] } = DispatchResult.pyError ∧
    ReflectiveRequestHandler.get ("edit").data [("edit").data]
      (fun _ => (Attr.absent : Attr Nat))
      { action := [], xsrf_token := [] } ≠
      DispatchResult.httpStatus 404 := by decide

/-- Claim C4: the enrollment-gated resolver. With no identity and no
transient support it redirects to the login URL with normalize=False and
returns None; with no identity, transient support and a browsable course
it returns the shared transient student and does not redirect; with an
identity but no enrolled record and no transient support it redirects to
/preview (a normalized redirect) and returns None. -/
theorem C4_resolve_enrolled_redirects :
    (∀ env : Env, env.user = none →
      BaseHandler.personalize_page_and_get_enrolled env false =
        { result := none, redirect := some (env.loginUrl, false), puts := [],
          transient_flag := some true }) ∧
    (∀ env : Env, env.user = none → env.browsable = true →
      BaseHandler.personalize_page_and_get_enrolled env true =
        { result := some TRANSIENT_STUDENT, redirect := none, puts := [],
          transient_flag := some true }) ∧
    (∀ (env : Env) (u : User), env.user = some u →
      env.enrolled u.email = none →
      BaseHandler.personalize_page_and_get_enrolled env false =
        { result := none, redirect := some (("/preview").data, true),
          puts := [], transient_flag := some true }) := by
  refine ⟨?_, ?_, ?_⟩
  · intro env h
    simp [BaseHandler.personalize_page_and_get_enrolled, h]
  · intro env h hb
    simp [BaseHandler.personalize_page_and_get_enrolled, h, hb]
  · intro env u h he
    simp [BaseHandler.personalize_page_and_get_enrolled, h, he]

/-- Witness for C4: the three branches at concrete environments. -/
theorem C4_resolve_enrolled_redirects_witness :
    BaseHandler.personalize_page_and_get_enrolled anonymousEnv false =
      { result := none,
        redirect := some (anonymousEnv.loginUrl, false), puts := [],
        transient_flag := some true } ∧
    BaseHandler.personalize_page_and_get_enrolled anonymousBrowsableEnv
      true =
      { result := some TRANSIENT_STUDENT, redirect := none, puts := [],
        transient_flag := some true } ∧
    BaseHandler.personalize_page_and_get_enrolled unenrolledEnv false =
      { result := none, redirect := some (("/preview").data, true),
        puts := [], transient_flag := some true } :=
  ⟨C4_resolve_enrolled_redirects.1 anonymousEnv rfl,
   C4_resolve_enrolled_redirects.2.1 anonymousBrowsableEnv rfl rfl,
   C4_resolve_enrolled_redirects.2.2 unenrolledEnv
     { email := ("a@b.example").data, uid := ("42").data } rfl rfl⟩

/-- Claim C5, counterexample: a REST-style handler answering a missing or
invalid `xsrf_token` sends a structured JSON response whose status is 403,
not the 412 the claim states (412 is the status of `validation_error`). -/
theorem C5_rest_status_counterexample :
    ((BaseRESTHandler.assert_xsrf_token_or_fail (fun _ _ => false)
        (("t").data) (("student-edit").data) []).1).map
      JsonResponse.status = some 403 ∧ (403 : Nat) ≠ 412 := by decide

/-- Claim C5, amended: on a missing or invalid xsrf_token a REST-style
handler responds with a structured 403 JSON payload (the bad-token message
plus the supplied args dict) and a page handler responds 403; the
structured 412 payload with the optional entity key is what
`validation_error` produces, for validation failures. -/
theorem C5_rest_status_amended :
    (∀ (validate : Str → Str → Bool) (token action : Str)
        (args : List (Str × Str)),
      (token = [] ∨ validate token action = false) →
      BaseRESTHandler.assert_xsrf_token_or_fail validate token action args =
        (some { status := 403, message := badXsrfTokenMessage,
                payload := some args }, false)) ∧
    (∀ (validate : Str → Str → Bool) (token action : Str),
      (token = [] ∨ validate token action = false) →
      BaseHandler.assert_xsrf_token_or_fail validate token action =
        (some 403, false)) ∧
    (∀ (message k : Str),
      BaseRESTHandler.validation_error message (some k) =
        { status := 412, message := message,
          payload := some [(("key").data, k)] } ∧
      BaseRESTHandler.validation_error message none =
        { status := 412, message := message, payload := none }) := by
  refine ⟨?_, ?_, ?_⟩
  · intro validate token action args h
    rcases h with h | h <;>
      simp [BaseRESTHandler.assert_xsrf_token_or_fail, h]
  · intro validate token action h
    rcases h with h | h <;>
      simp [BaseHandler.assert_xsrf_token_or_fail, h]
  · intro message k
    exact ⟨rfl, rfl⟩

/-- Witness for the amended C5, at a concrete rejected token. -/
theorem C5_rest_status_amended_witness :
    BaseRESTHandler.assert_xsrf_token_or_fail (fun _ _ => false)
      (("t").data) (("student-edit").data) [] =
      (some { status := 403, message := badXsrfTokenMessage,
              payload := some [] }, false) ∧
    BaseHandler.assert_xsrf_token_or_fail (fun _ _ => false) (("t").data)
      (("student-edit").data) = (some 403, false) ∧
    BaseRESTHandler.validation_error ("oops").data (some ("k1").data) =
      { status := 412, message := ("oops").data,
        payload := some [(("key").data, ("k1").data)] } :=
  ⟨C5_rest_status_amended.1 (fun _ _ => false) (("t").data)
     (("student-edit").data) [] (Or.inr rfl),
   C5_rest_status_amended.2.1 (fun _ _ => false) (("t").data)
     (("student-edit").data) (Or.inr rfl),
   (C5_rest_status_amended.2.2 (("oops").data) (("k1").data)).1⟩

/-- Claim C6, counterexample: the claim says that under slug / every path
is returned unchanged, but on the path given by two slashes and an
unmatched opening bracket `urlparse` raises ValueError (Invalid IPv6 URL)
inside `is_absolute`, so `canonicalize_url` raises instead of returning
the path. -/
theorem C6_ipv6_raise_counterexample :
    ApplicationHandler.canonicalize_url ("/").data ("//[a").data =
      .error () ∧
    (Except.error () : Except Unit Str) ≠ .ok (("//[a").data) :=
  ⟨rfl, fun h => Except.noConfusion h⟩

/-- Claim C6, amended: on every location on which `urlparse` does not
raise, `canonicalize_url` returns a value and prefixes the location with
the course slug exactly when the location has no scheme, does not already
start with the slug, and the slug is non-empty and not the root path; on a
location on which `urlparse` raises (a bracket-mismatched netloc after two
slashes) the ValueError propagates. Under slug /physics the path /course
becomes /physics/course; under slug / every location that parses is
unchanged; an absolute URL is unchanged. -/
theorem C6_canonicalize_url_slug_rule :
    (∀ (slug location : Str) (abs : Bool),
      ApplicationHandler.is_absolute location = .ok abs →
      ApplicationHandler.canonicalize_url slug location =
        .ok (if abs = false ∧ slug.isPrefixOf location = false ∧
              slug ≠ [] ∧ slug ≠ ("/").data
            then slug ++ location else location)) ∧
    (∀ slug location : Str,
      ApplicationHandler.is_absolute location = .error () →
      ApplicationHandler.canonicalize_url slug location = .error ()) ∧
    ApplicationHandler.canonicalize_url ("/physics").data ("/course").data =
      .ok (("/physics/course").data) ∧
    (∀ (location : Str) (abs : Bool),
      ApplicationHandler.is_absolute location = .ok abs →
      ApplicationHandler.canonicalize_url ("/").data location =
        .ok location) ∧
    ApplicationHandler.canonicalize_url ("/physics").data
      ("http://other.example/y").data =
      .ok (("http://other.example/y").data) := by
  refine ⟨?_, ?_, rfl, ?_, rfl⟩
  · intro slug location abs habs
    by_cases hpre : slug.isPrefixOf location = true <;>
    by_cases hnil : slug = ([] : Str) <;>
    by_cases hroot : slug = ("/").data <;>
    cases abs <;>
    simp_all [ApplicationHandler.canonicalize_url, Except.map]
  · intro slug location habs
    simp [ApplicationHandler.canonicalize_url, habs, Except.map]
  · intro location abs habs
    simp [ApplicationHandler.canonicalize_url, habs, Except.map]

/-- Witness for the amended C6: a prefixing application, a raising
location, and the root slug at concrete inputs. -/
theorem C6_canonicalize_url_slug_rule_witness :
    ApplicationHandler.canonicalize_url ("/x").data ("/course").data =
      .ok (("/x/course").data) ∧
    ApplicationHandler.canonicalize_url ("/physics").data ("//[a").data =
      .error () ∧
    ApplicationHandler.canonicalize_url ("/").data ("/course").data =
      .ok (("/course").data) := by
  refine ⟨?_, C6_canonicalize_url_slug_rule.2.1 (("/physics").data)
      (("//[a").data) rfl,
    C6_canonicalize_url_slug_rule.2.2.2.1 (("/course").data) false rfl⟩
  have h1 := C6_canonicalize_url_slug_rule.1 (("/x").data)
    (("/course").data) false rfl
  have hc : (false = false ∧
      (("/x").data).isPrefixOf (("/course").data) = false ∧
      ("/x").data ≠ ([] : Str) ∧ ("/x").data ≠ ("/").data) :=
    ⟨rfl, by decide, by decide, by decide⟩
  rw [h1, if_pos hc]
  rfl

/-- Claim C7: a transient student is never written to persistent storage.
Every `student.put()` in `personalize_page_and_get_enrolled` stores a
non-transient student, and a put happens only for an authenticated user
whose enrolled student record is non-transient with an unset `user_id`;
the put stores exactly that record with `user_id` backfilled from the
identity. -/
theorem C7_transient_never_persisted :
    ∀ (env : Env) (b : Bool),
      (∀ s ∈ (BaseHandler.personalize_page_and_get_enrolled env b).puts,
        s.is_transient = false) ∧
      ((BaseHandler.personalize_page_and_get_enrolled env b).puts ≠ [] →
        ∃ u student, env.user = some u ∧
          env.enrolled u.email = some student ∧
          student.is_transient = false ∧ student.user_id = [] ∧
          (BaseHandler.personalize_page_and_get_enrolled env b).puts =
            [{ student with user_id := u.uid }]) := by
  intro env b
  cases henv : env.user with
  | none =>
    simp only [BaseHandler.personalize_page_and_get_enrolled, henv]
    split <;> simp
  | some u =>
    cases he : env.enrolled u.email with
    | none =>
      simp only [BaseHandler.personalize_page_and_get_enrolled, henv, he]
      split <;> simp
    | some student =>
      simp only [BaseHandler.personalize_page_and_get_enrolled, henv, he]
      by_cases ht : student.is_transient = true
      · rw [if_pos ht]
        split <;> simp
      · have ht2 : student.is_transient = false := by simpa using ht
        rw [if_neg ht]
        by_cases hid : student.user_id = ([] : Str)
        · rw [if_pos hid]
          constructor
          · intro s hs
            simp only [List.mem_singleton] at hs
            subst hs
            exact ht2
          · intro _
            exact ⟨u, student, rfl, he, ht2, hid, rfl⟩
        · rw [if_neg hid]
          simp

/-- Witness for C7: the legacy-student environment actually performs a
put, and the theorem instantiated there shows the put is the non-transient
record with the backfilled id. -/
theorem C7_transient_never_persisted_witness :
    (∀ s ∈ (BaseHandler.personalize_page_and_get_enrolled legacyStudentEnv
        false).puts, s.is_transient = false) ∧
    (∃ u student, legacyStudentEnv.user = some u ∧
      legacyStudentEnv.enrolled u.email = some student ∧
      student.is_transient = false ∧ student.user_id = [] ∧
      (BaseHandler.personalize_page_and_get_enrolled legacyStudentEnv
        false).puts = [{ student with user_id := u.uid }]) :=
  ⟨(C7_transient_never_persisted legacyStudentEnv false).1,
   (C7_transient_never_persisted legacyStudentEnv false).2 (by decide)⟩

/-- Claim C8: for every enrolled student with any label set (given as the
decoded list of label strings, parsed like the source does), submitting
the track-label set containing 2 and 5 (both course-track labels) results
in a label set whose track-type part is exactly the set of 2 and 5 and
whose non-track part is exactly what it was before. -/
theorem C8_track_label_replacement :
    ∀ (track_label_ids : List Int) (student_label_list : List Str)
      (L : List Int),
      (2 : Int) ∈ track_label_ids → (5 : Int) ∈ track_label_ids →
      StudentSetTracksHandler.parseStudentLabels student_label_list =
        .ok L →
      ∃ S : Finset Int,
        StudentSetTracksHandler.post track_label_ids
          [("2").data, ("5").data] student_label_list = .ok S ∧
        S ∩ track_label_ids.toFinset = {2, 5} ∧
        S \ track_label_ids.toFinset =
          L.toFinset \ track_label_ids.toFinset := by
  intro T stu L h2 h5 hL
  have e2 : pyInt (("2").data) = some 2 := rfl
  have e5 : pyInt (("5").data) = some 5 := rfl
  have hsub : StudentSetTracksHandler.parseSubmitted T
      [("2").data, ("5").data] = .ok [2, 5] := by
    simp [StudentSetTracksHandler.parseSubmitted, e2, e5, h2, h5]
  have h2f : (2 : Int) ∈ T.toFinset := List.mem_toFinset.mpr h2
  have h5f : (5 : Int) ∈ T.toFinset := List.mem_toFinset.mpr h5
  refine ⟨(L.toFinset \ T.toFinset) ∪ {2, 5}, ?_, ?_, ?_⟩
  · simp [StudentSetTracksHandler.post, hsub, hL]
  · ext x
    simp only [Finset.mem_inter, Finset.mem_union, Finset.mem_sdiff,
      Finset.mem_insert, Finset.mem_singleton]
    constructor
    · rintro ⟨⟨hx, hnx⟩ | hx, hxT⟩
      · exact absurd hxT hnx
      · exact hx
    · rintro (rfl | rfl)
      · exact ⟨Or.inr (Or.inl rfl), h2f⟩
      · exact ⟨Or.inr (Or.inr rfl), h5f⟩
  · ext x
    simp only [Finset.mem_sdiff, Finset.mem_union, Finset.mem_insert,
      Finset.mem_singleton]
    constructor
    · rintro ⟨⟨hx, hnx⟩ | hx, hxT⟩
      · exact ⟨hx, hnx⟩
      · rcases hx with rfl | rfl
        · exact absurd h2f hxT
        · exact absurd h5f hxT
    · rintro ⟨hx, hnx⟩
      exact ⟨Or.inl ⟨hx, hnx⟩, hnx⟩

/-- Witness for C8: course-track labels 2, 5, 9; a student carrying labels
7 (non-track) and 2 (track) submits tracks 2 and 5. -/
theorem C8_track_label_replacement_witness :
    ∃ S : Finset Int,
      StudentSetTracksHandler.post [2, 5, 9] [("2").data, ("5").data]
        [("7").data, ("2").data] = .ok S ∧
      S ∩ ([2, 5, 9] : List Int).toFinset = {2, 5} ∧
      S \ ([2, 5, 9] : List Int).toFinset =
        ([7, 2] : List Int).toFinset \ ([2, 5, 9] : List Int).toFinset :=
  C8_track_label_replacement [2, 5, 9] [("7").data, ("2").data] [7, 2]
    (by decide) (by decide) rfl

/-- Claim C9, counterexample: `canonicalize_url` is not idempotent for
every slug and location. With a slug of two slashes and an opening
bracket, the location x canonicalizes to a value on which `urlparse`
raises ValueError, so the second application raises instead of returning
the value again. -/
theorem C9_prefix_raise_counterexample :
    ApplicationHandler.canonicalize_url ("//[").data ("x").data =
      .ok (("//[x").data) ∧
    ApplicationHandler.canonicalize_url ("//[").data ("//[x").data =
      .error () ∧
    (Except.error () : Except Unit Str) ≠ .ok (("//[x").data) :=
  ⟨rfl, rfl, fun h => Except.noConfusion h⟩

/-- Claim C9, amended: `canonicalize_url` is idempotent wherever the
second application does not raise: whenever the first application returns
a value and `urlparse` does not raise on that value, the second
application returns the value unchanged, since a prefixed result starts
with the slug and is never prefixed again. -/
theorem C9_canonicalize_url_idempotent :
    ∀ (slug location v : Str) (abs : Bool),
      ApplicationHandler.canonicalize_url slug location = .ok v →
      ApplicationHandler.is_absolute v = .ok abs →
      ApplicationHandler.canonicalize_url slug v = .ok v := by
  intro slug location v abs h1 h2
  unfold ApplicationHandler.canonicalize_url at h1 ⊢
  cases habs : ApplicationHandler.is_absolute location with
  | error e =>
    rw [habs] at h1
    cases h1
  | ok abs1 =>
    rw [habs] at h1
    simp only [Except.map, Except.ok.injEq] at h1
    by_cases hc : ((!abs1 && !(slug.isPrefixOf location)) &&
        (!(decide (slug = ([] : Str))) &&
          !(decide (slug = ("/").data)))) = true
    · rw [if_pos hc] at h1
      subst h1
      rw [h2]
      simp [Except.map, isPrefixOf_append_self]
    · rw [if_neg hc] at h1
      subst h1
      rw [h2]
      rw [habs] at h2
      simp only [Except.ok.injEq] at h2
      subst h2
      simp only [Except.map, if_neg hc]

/-- Witness for the amended C9: the prefixed result of a concrete
canonicalization is a fixed point of a second canonicalization. -/
theorem C9_canonicalize_url_idempotent_witness :
    ApplicationHandler.canonicalize_url ("/physics").data
      ("/physics/course").data = .ok (("/physics/course").data) :=
  C9_canonicalize_url_idempotent (("/physics").data) (("/course").data)
    (("/physics/course").data) false rfl rfl

/-- Claim C10, counterexample: submitting the label id abc — which is not
a course-track label id — does not produce a no-error run: `int` raises
ValueError (the error outcome), so the claim that every id not in the
track set is silently ignored with no error is false. -/
theorem C10_nonnumeric_label_counterexample :
    StudentSetTracksHandler.post [(2 : Int), 5] [('a' :: 'b' :: 'c' :: [])]
      [] = .error () := by rfl

/-- Claim C10, amended: in any submission, every submitted label id that
is empty or that parses as an integer not in the set of course-track
labels is silently filtered out before the merge and never adds a label —
in every completed run a non-track id is in the resulting set only if the
student already had it; a submission whose ids are all empty or
integer-parseable completes without error; and when every submitted id is
of the ignored kinds, the resulting set is exactly the student's non-track
labels. A non-empty id that does not parse as an integer instead raises
ValueError. -/
theorem C10_nonnumeric_label_amended :
    (∀ (track_label_ids : List Int)
        (submitted student_label_list : List Str) (L : List Int)
        (S : Finset Int),
      StudentSetTracksHandler.parseStudentLabels student_label_list =
        .ok L →
      StudentSetTracksHandler.post track_label_ids submitted
        student_label_list = .ok S →
      ∀ n : Int, n ∉ track_label_ids → n ∈ S → n ∈ L.toFinset) ∧
    (∀ (track_label_ids : List Int)
        (submitted student_label_list : List Str) (L : List Int),
      (∀ s ∈ submitted, s = [] ∨ ∃ n : Int, pyInt s = some n) →
      StudentSetTracksHandler.parseStudentLabels student_label_list =
        .ok L →
      ∃ S : Finset Int, StudentSetTracksHandler.post track_label_ids
        submitted student_label_list = .ok S) ∧
    (∀ (track_label_ids : List Int)
        (submitted student_label_list : List Str) (L : List Int),
      (∀ s ∈ submitted, s = [] ∨
        ∃ n : Int, pyInt s = some n ∧ n ∉ track_label_ids) →
      StudentSetTracksHandler.parseStudentLabels student_label_list =
        .ok L →
      StudentSetTracksHandler.post track_label_ids submitted
        student_label_list =
        .ok (L.toFinset \ track_label_ids.toFinset)) := by
  refine ⟨?_, ?_, ?_⟩
  · intro T submitted stu L S hL hpost n hnT hnS
    cases hsub : StudentSetTracksHandler.parseSubmitted T submitted with
    | error e =>
      rw [StudentSetTracksHandler.post, hsub] at hpost
      cases hpost
    | ok new_list =>
      rw [StudentSetTracksHandler.post, hsub, hL] at hpost
      simp only [Except.ok.injEq] at hpost
      subst hpost
      rcases Finset.mem_union.mp hnS with h | h
      · exact (Finset.mem_sdiff.mp h).1
      · exact absurd
          (parseSubmitted_subset T submitted new_list hsub n
            (List.mem_toFinset.mp h)) hnT
  · intro T submitted stu L hall hL
    obtain ⟨l, hl⟩ := parseSubmitted_total T submitted hall
    exact ⟨(L.toFinset \ T.toFinset) ∪ l.toFinset, by
      simp [StudentSetTracksHandler.post, hl, hL]⟩
  · intro T submitted stu L hsub hL
    simp [StudentSetTracksHandler.post,
      parseSubmitted_ignored T submitted hsub, hL]

/-- Witness for the amended C10: the mixed submission of the track id 2
and the non-track id 7 against track set 2, 5 completes without error
(the no-error conjunct), and the non-track id 3 in the completed result is
one the student already had (the never-adds conjunct, at the run whose
result is computed explicitly). -/
theorem C10_nonnumeric_label_amended_witness :
    (∃ S : Finset Int, StudentSetTracksHandler.post [(2 : Int), 5]
      [("2").data, ("7").data] [("3").data] = .ok S) ∧
    (3 : Int) ∈ ([3] : List Int).toFinset := by
  constructor
  · exact C10_nonnumeric_label_amended.2.1 [2, 5]
      [("2").data, ("7").data] [("3").data] [3]
      (by
        intro s hs
        simp only [List.mem_cons, List.not_mem_nil, or_false] at hs
        rcases hs with rfl | rfl
        · exact Or.inr ⟨2, rfl⟩
        · exact Or.inr ⟨7, rfl⟩)
      rfl
  · exact C10_nonnumeric_label_amended.1 [2, 5]
      [("2").data, ("7").data] [("3").data] [3]
      ((([3] : List Int).toFinset \ ([2, 5] : List Int).toFinset) ∪
        ([2] : List Int).toFinset)
      rfl rfl 3 (by decide) (by decide)
